import Mathlib

/-!
Shallow embedding of `src/mcp-handler.py` (a FastAPI relay around a remote
tool-calling agent) and proofs about the claims of its specification.

The embedding models the `/chat` request handler (`chat`, lines 184-274 of the
source), the hourly cleanup sweep (`cleanup_sessions`, lines 276-291), and the
string heuristics the handler uses to classify agent replies.  The remote agent
is an external collaborator: one handler invocation observes it only through the
outcome of a single `agent.run` call, modelled by `AgentResult` (a returned
reply text, an `asyncio.TimeoutError`, a `TypeError`, or a generic exception
together with the outcome of the subsequent `tools/list` schema fetch).

Python string primitives used by the source (`in`, `str.split`, `str.lower`,
`str.strip`, `str.join`) are re-implemented over `List Char` so that every
definition evaluates inside the kernel (`decide`/`rfl`); Lean's built-in
`String.splitOn`/`String.toLower`/`String.trim` are compiled with well-founded
recursion and do not reduce.  `asyncio.get_event_loop().time()` timestamps are
modelled as `Nat` time units.
-/

/-! ## Python string primitives -/

/-- Python whitespace characters removed by `str.strip()` (ASCII range). -/
def isPyWhitespace (c : Char) : Bool :=
  c == ' ' || c == '\t' || c == '\n' || c == '\x0d' || c == '\x0b' || c == '\x0c'

/-- Scanner for Python's substring test `sub in s`: does `sub` occur in the list? -/
def pyContainsGo (sub : List Char) : List Char → Bool
  | [] => sub.isPrefixOf []
  | c :: rest => sub.isPrefixOf (c :: rest) || pyContainsGo sub rest

/-- Python's `sub in s` substring containment. -/
def pyContains (s sub : String) : Bool := pyContainsGo sub.data s.data

/-- Scanner for Python's `str.split(sep)` with non-empty `sep`: cut at every
non-overlapping occurrence, scanning left to right.  `fuel` is an upper bound on
the number of steps (the list shrinks by at least one character per step, so
`fuel = s.length` always suffices); it keeps the recursion structural so the
kernel can evaluate it. -/
def pySplitGo (sep : List Char) : Nat → List Char → List Char → List (List Char)
  | _, [], acc => [acc.reverse]
  | 0, l, acc => [acc.reverse ++ l]
  | fuel + 1, c :: rest, acc =>
    if sep.isPrefixOf (c :: rest) then
      acc.reverse :: pySplitGo sep fuel (List.drop (sep.length - 1) rest) []
    else
      pySplitGo sep fuel rest (c :: acc)

/-- Python's `s.split(sep)` for a non-empty separator.  (The source never splits
on an empty separator, which Python rejects; we return `[s]` there.) -/
def pySplit (s sep : String) : List String :=
  if sep.data.isEmpty then [s]
  else (pySplitGo sep.data s.data.length s.data []).map String.mk

/-- Python's `s.lower()` (ASCII case folding, which covers every string the
source manipulates). -/
def pyLower (s : String) : String := String.mk (s.data.map Char.toLower)

/-- Python's `s.strip()`: drop leading and trailing whitespace. -/
def pyStrip (s : String) : String :=
  String.mk (((s.data.dropWhile isPyWhitespace).reverse.dropWhile isPyWhitespace).reverse)

/-- Python's `sep.join(parts)`. -/
def pyJoin (sep : String) : List String → String
  | [] => ""
  | [x] => x
  | x :: xs => x ++ sep ++ pyJoin sep xs

/-! ## Data model (source lines 100-110, 191-198) -/

/-- One entry of `session["conversation_history"]`: a
`{"role": ..., "content": ...}` dict (source lines 201, 223, 228, 263). -/
structure Message where
  role : String
  content : String
deriving DecidableEq

/-- One value of the `sessions` dict (source lines 193-198). -/
structure Session where
  conversation_history : List Message
  original_prompt : String
  attempts : Nat
  last_active : Nat
deriving DecidableEq

/-- One entry of the `tools/list` response consumed by the fault path (source
lines 246-251): only `tool.get('schema', {}).get('required', [])` is read. -/
structure Tool where
  required : List String
deriving DecidableEq

/-- The observable outcome of the single `await asyncio.wait_for(agent.run ...)`
call of one loop iteration (source line 215), together with — in the generic
exception case — the outcome of the follow-up `tools/list` fetch (line 245):
`some tools` if that request succeeded, `none` if it raised too.
`reply text` carries the already-coerced `result_text` of line 216. -/
inductive AgentResult where
  | reply (text : String)
  | timeout
  | typeError (msg : String)
  | fault (msg : String) (tools_fetch : Option (List Tool))
deriving DecidableEq

/-- Body of a `ChatResponse` (source lines 104-107). -/
structure ChatResponse where
  response : String
  status : String
  session_id : String
deriving DecidableEq

/-- What the handler body produces before the outer `except Exception` block:
either a returned `ChatResponse` or a raised `HTTPException(code, detail)`. -/
inductive InnerResult where
  | ok (r : ChatResponse)
  | raised (code : Nat) (detail : String)
deriving DecidableEq

/-- What the HTTP client observes from one `/chat` request. -/
inductive HttpOutcome where
  | ok (r : ChatResponse)
  | error (code : Nat) (detail : String)
deriving DecidableEq

/-- The in-memory `sessions` dict (source line 110), as an association list with
at most one binding per key. -/
abbrev Store := List (String × Session)

/-- Dict lookup `sessions[sid]` / `sid in sessions`. -/
def findSession : Store → String → Option Session
  | [], _ => none
  | (k, v) :: rest, sid => if k == sid then some v else findSession rest sid

/-- Dict write `sessions[sid] = s` (replace the binding if present, else add). -/
def insertSession : Store → String → Session → Store
  | [], sid, s => [(sid, s)]
  | (k, v) :: rest, sid, s =>
    if k == sid then (sid, s) :: rest else (k, v) :: insertSession rest sid s

/-! ## The `/chat` handler (source lines 184-274) -/

/-- `max_attempts = 3` (source line 205). -/
def max_attempts : Nat := 3

/-- Detail of the `HTTPException(status_code=400, ...)` raised when the while
loop exits (source lines 268-270). -/
def max_attempts_detail : String :=
  "Maximum attempts reached. Please provide all required parameters and try again."

/-- Resolution `session_id = request.session_id or str(uuid.uuid4())` (source
line 191).  Python's `or` treats both `None` and the empty string as falsy; the
freshly generated UUID is passed in as `fresh_id`. -/
def resolve_sid (request_session_id : Option String) (fresh_id : String) : String :=
  match request_session_id with
  | some sid => if sid == "" then fresh_id else sid
  | none => fresh_id

/-- Session lookup-or-create (source lines 192-200): a new session starts with
empty history, `original_prompt = request.message`, `attempts = 0`. -/
def resolve_session (st : Store) (session_id message : String) (now : Nat) : Session :=
  match findSession st session_id with
  | some s => s
  | none =>
    { conversation_history := [], original_prompt := message, attempts := 0, last_active := now }

/-- The state of the session after lines 201-202: the user turn is appended and
`last_active` refreshed, before the attempt-ceiling check of the while loop. -/
def appended_session (st : Store) (session_id message : String) (now : Nat) : Session :=
  let s0 := resolve_session st session_id message now
  { s0 with
    conversation_history := s0.conversation_history ++ [{ role := "user", content := message }],
    last_active := now }

/-- Prompt construction (source lines 209-212): the last history entry's content
unless `attempts > 0`, in which case an `"Original request: ..."` header plus
every user turn of the history (the current one included, it was appended at
line 201) each prefixed `"Provided: "`, joined by newlines. -/
def buildInput (session : Session) : String :=
  let input_content := (session.conversation_history.getLastD ⟨"", ""⟩).content
  if session.attempts > 0 then
    "Original request: " ++ session.original_prompt ++ "\n" ++
      pyJoin "\n" ((session.conversation_history.filter (fun m => m.role == "user")).map
        (fun m => "Provided: " ++ m.content))
  else input_content

/-- Missing-parameter detection on a returned reply (source line 220):
`"please provide" in result_text.lower() or "missing" in result_text.lower()`. -/
def is_missing_reply (result_text : String) : Bool :=
  pyContains (pyLower result_text) "please provide" || pyContains (pyLower result_text) "missing"

/-- Parameter-name extraction on a returned reply (source line 221):
`result_text.split("please provide ")[-1].split(".")[0].strip()` when the
lower-cased text contains `"please provide"`, else `"required parameter"`.
Note the detection is case-insensitive but the split is case-sensitive, and
`[-1]` takes the segment after the last occurrence.  The handler computes this
value but never places it in the response. -/
def extract_missing_param (result_text : String) : String :=
  if pyContains (pyLower result_text) "please provide" then
    pyStrip ((pySplit ((pySplit result_text "please provide ").getLastD "") ".").headD "")
  else "required parameter"

/-- The nested `for tool in tools` / `for param in required` scan with its two
`break`s (source lines 247-256).  `missing_param` starts as `None`; the inner
loop stores the first required parameter whose lower-cased form occurs in the
lower-cased error string, and the outer loop stops once `missing_param` is
truthy (a non-empty string — Python's `if missing_param:` treats `""` as falsy
and keeps scanning). -/
def scan_tools (error_str : String) : List Tool → Option String → Option String
  | [], missing_param => missing_param
  | tool :: rest, missing_param =>
    let missing_param' :=
      match tool.required.find? (fun param => pyContains error_str (pyLower param)) with
      | some param => some param
      | none => missing_param
    match missing_param' with
    | some p => if p == "" then scan_tools error_str rest missing_param' else missing_param'
    | none => scan_tools error_str rest missing_param'

/-- The probe-list fallback (source line 257):
`"email" if "email" in error_str else "link_id" if "link_id" in error_str else
"transaction_id"` — note the final branch is unconditional. -/
def probe_fallback (error_str : String) : String :=
  if pyContains error_str "email" then "email"
  else if pyContains error_str "link_id" then "link_id"
  else "transaction_id"

/-- The whole fault-path parameter choice (source lines 243-260): if the
`tools/list` fetch raised, `"required parameter"`; otherwise the schema scan,
with `missing_param = missing_param or (probe fallback)` (line 257 — a `None`
or empty-string scan result falls through to the probe list). -/
def fault_missing_param (error_str : String) (tools_fetch : Option (List Tool)) : String :=
  match tools_fetch with
  | none => "required parameter"
  | some tools =>
    match scan_tools error_str tools none with
    | some p => if p == "" then probe_fallback error_str else p
    | none => probe_fallback error_str

/-- Result of one iteration of the while-loop body (source lines 206-265).
`ret` carries the returned-or-raised result, the session state on exit, and how
many times the agent was invoked; `next` would be a fall-through to the next
iteration (no branch of the source produces it — every branch returns or
raises — but the constructor is kept so that this is a theorem, not a scheme). -/
inductive LoopStep where
  | ret (result : InnerResult) (session : Session) (agent_calls : Nat)
  | next (session : Session) (agent_calls : Nat)

/-- One iteration of the while-loop body (source lines 207-265), given the
observable outcome of the agent invocation.  Branches:
  * returned reply classified missing-parameter (lines 220-225): increment
    `attempts`, append the assistant turn, return the reply with status
    `"missing_parameter"`;
  * returned reply otherwise (lines 227-232): append the assistant turn, reset
    `attempts` to 0, refresh `last_active`, return status `"success"`;
  * `asyncio.TimeoutError` (lines 234-236): raise `HTTPException(504, ...)`;
  * `TypeError` (lines 237-239): raise `HTTPException(500, "Pickling error...")`;
  * any other exception (lines 240-265): build a clarification from
    `fault_missing_param`, increment `attempts`, append it as the assistant
    turn, return status `"missing_parameter"`. -/
def loopBody (session_id : String) (now : Nat) (session : Session)
    (agent : String → AgentResult) : LoopStep :=
  let input_content := buildInput session
  match agent input_content with
  | .reply result_text =>
    if is_missing_reply result_text then
      LoopStep.ret
        (.ok { response := result_text, status := "missing_parameter", session_id := session_id })
        { session with
          attempts := session.attempts + 1,
          conversation_history :=
            session.conversation_history ++ [{ role := "assistant", content := result_text }] }
        1
    else
      LoopStep.ret
        (.ok { response := result_text, status := "success", session_id := session_id })
        { session with
          conversation_history :=
            session.conversation_history ++ [{ role := "assistant", content := result_text }],
          attempts := 0,
          last_active := now }
        1
  | .timeout =>
    LoopStep.ret (.raised 504 "Request timed out. Please try again.") session 1
  | .typeError msg =>
    LoopStep.ret
      (.raised 500 ("Pickling error: " ++ msg ++ ". Please try again or contact support."))
      session 1
  | .fault msg tools_fetch =>
    let error_str := pyLower msg
    let missing_param := fault_missing_param error_str tools_fetch
    let response_text :=
      "You requested: " ++ session.original_prompt ++ ". Please provide the " ++ missing_param ++ "."
    LoopStep.ret
      (.ok { response := response_text, status := "missing_parameter", session_id := session_id })
      { session with
        attempts := session.attempts + 1,
        conversation_history :=
          session.conversation_history ++ [{ role := "assistant", content := response_text }] }
      1

/-- The `while session["attempts"] < max_attempts:` loop (source lines 206-270)
with its exit raise `HTTPException(400, ...)`.  Returns the inner result, the
session state at exit, and the number of agent invocations.  `fuel` bounds the
number of iterations to keep the recursion structural; since every branch of
`loopBody` returns (`LoopStep.ret`), any `fuel` gives the same result (proved
below at C9). -/
def chatLoop (session_id : String) (now : Nat) (agent : String → AgentResult) :
    Nat → Session → InnerResult × Session × Nat
  | 0, session =>
    if session.attempts < max_attempts then
      match loopBody session_id now session agent with
      | .ret r s' c => (r, s', c)
      | .next s' c => (.raised 500 "loop fuel exhausted", s', c)
    else
      (.raised 400 max_attempts_detail, session, 0)
  | fuel + 1, session =>
    if session.attempts < max_attempts then
      match loopBody session_id now session agent with
      | .ret r s' c => (r, s', c)
      | .next s' c =>
        let out := chatLoop session_id now agent fuel s'
        (out.1, out.2.1, c + out.2.2)
    else
      (.raised 400 max_attempts_detail, session, 0)

/-- The outer `except Exception as e: raise HTTPException(500, f"Internal server
error: {str(e)}")` (source lines 272-274).  `fastapi.HTTPException` subclasses
`Exception`, so an `HTTPException` raised inside the handler body — the 504 of
the timeout branch and the 400 of the attempt ceiling included — is caught here
and re-raised with status 500; `str` of a starlette `HTTPException` is
`f"{status_code}: {detail}"`. -/
def wrapOuter : InnerResult → HttpOutcome
  | .ok r => .ok r
  | .raised code detail =>
    .error 500 ("Internal server error: " ++ toString code ++ ": " ++ detail)

/-- The `/chat` handler (source lines 184-274).  Inputs: the current `sessions`
store, the request's optional `session_id`, the UUID that would be generated if
it is absent or empty, the request `message`, the event-loop time, and the
observable behavior of the agent as a function of the prompt it is sent.
Output: the HTTP outcome, the store after the request (Python mutates the
stored session dict in place, so the store reflects the session state at exit
on every path, raising paths included), and the number of agent invocations. -/
def chat (st : Store) (request_session_id : Option String) (fresh_id message : String)
    (now : Nat) (agent : String → AgentResult) : HttpOutcome × Store × Nat :=
  let session_id := resolve_sid request_session_id fresh_id
  let s1 := appended_session st session_id message now
  let out := chatLoop session_id now agent max_attempts s1
  (wrapOuter out.1, insertSession st session_id out.2.1, out.2.2)

/-! ## The cleanup task (source lines 276-291) -/

/-- The expiry test of one sweep (source lines 283-285): evict a session if
`current_time - last_active > 86400` (24 hours) or its history is empty. -/
def session_expired (current_time : Nat) (s : Session) : Bool :=
  decide (86400 < current_time - s.last_active) || s.conversation_history.isEmpty

/-- One sweep of the hourly cleanup loop (source lines 280-289): delete every
expired session, keep the rest. -/
def cleanup_sweep (current_time : Nat) (st : Store) : Store :=
  st.filter (fun p => !session_expired current_time p.2)

/-! ## Helper lemmas -/

theorem findSession_insert_self (st : Store) (sid : String) (s : Session) :
    findSession (insertSession st sid s) sid = some s := by
  induction st with
  | nil => simp [insertSession, findSession]
  | cons p rest ih =>
    obtain ⟨k, v⟩ := p
    by_cases h : k = sid
    · subst h; simp [insertSession, findSession]
    · simp [insertSession, findSession, h, ih]

theorem findSession_insert_ne (st : Store) (sid k : String) (s : Session) (h : sid ≠ k) :
    findSession (insertSession st sid s) k = findSession st k := by
  induction st with
  | nil => simp [insertSession, findSession, h]
  | cons p rest ih =>
    obtain ⟨k', v⟩ := p
    by_cases h' : k' = sid
    · subst h'; simp [insertSession, findSession, h]
    · simp [insertSession, findSession, h', ih]

theorem resolve_sid_some (sid fid : String) (h : sid ≠ "") :
    resolve_sid (some sid) fid = sid := by
  simp [resolve_sid, h]

theorem appended_session_found (st : Store) (sid msg : String) (now : Nat) (s : Session)
    (hfind : findSession st sid = some s) :
    appended_session st sid msg now =
      { s with
        conversation_history := s.conversation_history ++ [{ role := "user", content := msg }],
        last_active := now } := by
  simp [appended_session, resolve_session, hfind]

/-- Every branch of the loop body returns or raises (`LoopStep.ret`), invokes
the agent exactly once, preserves `original_prompt`, and either returns a
`ChatResponse` having appended exactly that response as an assistant turn (with
`attempts` incremented or reset to 0), or raises leaving the session untouched. -/
theorem loopBody_spec (session_id : String) (now : Nat) (s : Session)
    (agent : String → AgentResult) :
    ∃ r s', loopBody session_id now s agent = .ret r s' 1 ∧
      s'.original_prompt = s.original_prompt ∧
      ((∃ resp, r = .ok resp ∧
          s'.conversation_history =
            s.conversation_history ++ [{ role := "assistant", content := resp.response }] ∧
          (s'.attempts = s.attempts + 1 ∨ s'.attempts = 0)) ∨
        (∃ code detail, r = .raised code detail ∧ s' = s)) := by
  cases h : agent (buildInput s) with
  | reply t =>
    by_cases hm : is_missing_reply t
    · refine ⟨.ok { response := t, status := "missing_parameter", session_id := session_id },
        { s with
          attempts := s.attempts + 1,
          conversation_history :=
            s.conversation_history ++ [{ role := "assistant", content := t }] },
        ?_, rfl, Or.inl ⟨_, rfl, rfl, Or.inl rfl⟩⟩
      simp [loopBody, h, hm]
    · refine ⟨.ok { response := t, status := "success", session_id := session_id },
        { s with
          conversation_history :=
            s.conversation_history ++ [{ role := "assistant", content := t }],
          attempts := 0, last_active := now },
        ?_, rfl, Or.inl ⟨_, rfl, rfl, Or.inr rfl⟩⟩
      simp [loopBody, h, hm]
  | timeout =>
    exact ⟨.raised 504 "Request timed out. Please try again.", s,
      by simp [loopBody, h], rfl, Or.inr ⟨_, _, rfl, rfl⟩⟩
  | typeError msg =>
    exact ⟨.raised 500 ("Pickling error: " ++ msg ++ ". Please try again or contact support."), s,
      by simp [loopBody, h], rfl, Or.inr ⟨_, _, rfl, rfl⟩⟩
  | fault msg tf =>
    refine ⟨.ok
      { response := "You requested: " ++ s.original_prompt ++ ". Please provide the " ++
          fault_missing_param (pyLower msg) tf ++ ".",
        status := "missing_parameter",
        session_id := session_id },
      { s with
        attempts := s.attempts + 1,
        conversation_history := s.conversation_history ++
          [{ role := "assistant", content :=
              "You requested: " ++ s.original_prompt ++ ". Please provide the " ++
                fault_missing_param (pyLower msg) tf ++ "." }] },
      ?_, rfl, Or.inl ⟨_, rfl, rfl, Or.inl rfl⟩⟩
    simp [loopBody, h]

theorem chatLoop_run (session_id : String) (now : Nat) (agent : String → AgentResult)
    (fuel : Nat) (s : Session) (h : s.attempts < max_attempts)
    (r : InnerResult) (s' : Session) (c : Nat)
    (hbody : loopBody session_id now s agent = .ret r s' c) :
    chatLoop session_id now agent fuel s = (r, s', c) := by
  cases fuel <;> simp [chatLoop, h, hbody]

theorem chatLoop_ceiling (session_id : String) (now : Nat) (agent : String → AgentResult)
    (fuel : Nat) (s : Session) (h : ¬ s.attempts < max_attempts) :
    chatLoop session_id now agent fuel s = (.raised 400 max_attempts_detail, s, 0) := by
  cases fuel <;> simp [chatLoop, h]

theorem chat_def (st : Store) (rs : Option String) (fid msg : String) (now : Nat)
    (agent : String → AgentResult) :
    chat st rs fid msg now agent =
      (wrapOuter (chatLoop (resolve_sid rs fid) now agent max_attempts
          (appended_session st (resolve_sid rs fid) msg now)).1,
        insertSession st (resolve_sid rs fid)
          (chatLoop (resolve_sid rs fid) now agent max_attempts
            (appended_session st (resolve_sid rs fid) msg now)).2.1,
        (chatLoop (resolve_sid rs fid) now agent max_attempts
          (appended_session st (resolve_sid rs fid) msg now)).2.2) := rfl

/-- `attempts` stays at or below the ceiling through one run of the while loop. -/
theorem chatLoop_attempts_le (session_id : String) (now : Nat)
    (agent : String → AgentResult) (fuel : Nat) (s : Session)
    (h : s.attempts ≤ max_attempts) :
    (chatLoop session_id now agent fuel s).2.1.attempts ≤ max_attempts := by
  by_cases hlt : s.attempts < max_attempts
  · obtain ⟨r, s', hbody, _, hcases⟩ := loopBody_spec session_id now s agent
    rw [chatLoop_run session_id now agent fuel s hlt r s' 1 hbody]
    rcases hcases with ⟨resp, _, _, hatt | hatt⟩ | ⟨code, detail, _, hs⟩
    · simpa [hatt] using hlt
    · simp [hatt]
    · simpa [hs] using h
  · rw [chatLoop_ceiling session_id now agent fuel s hlt]
    exact h

/-! ## C1 -/

/-- C1: for every session, `attempts` never exceeds `max_attempts` (3) — the
handler preserves the invariant `attempts ≤ 3` across every store entry for
every agent behavior — and a call on a session whose `attempts` has reached
`max_attempts` short-circuits: the agent is invoked zero times, the
attempt-ceiling error is returned (raised as `HTTPException(400)` and wrapped
to 500 by the outer handler), and nothing is persisted besides the appended
user turn (with its `last_active` bookkeeping refresh of source line 202):
`attempts`, `original_prompt` and the prior history are untouched and no
assistant turn is appended. -/
theorem attempt_ceiling_C1 (st : Store) (rs : Option String) (fid msg : String) (now : Nat)
    (agent : String → AgentResult)
    (hinv : ∀ k sk, findSession st k = some sk → sk.attempts ≤ max_attempts) :
    (∀ k sk, findSession (chat st rs fid msg now agent).2.1 k = some sk →
      sk.attempts ≤ max_attempts) ∧
    (∀ sid s, rs = some sid → sid ≠ "" → findSession st sid = some s →
      s.attempts = max_attempts →
      chat st rs fid msg now agent =
        (.error 500 ("Internal server error: 400: " ++ max_attempts_detail),
          insertSession st sid
            { s with
              conversation_history :=
                s.conversation_history ++ [{ role := "user", content := msg }],
              last_active := now },
          0)) := by
  constructor
  · intro k sk hk
    rw [chat_def] at hk
    by_cases hksid : resolve_sid rs fid = k
    · rw [hksid, findSession_insert_self] at hk
      injection hk with hk
      subst hk
      apply chatLoop_attempts_le
      have happ : (appended_session st k msg now).attempts =
          (resolve_session st k msg now).attempts := by
        simp [appended_session]
      rw [happ]
      cases hr : findSession st k with
      | some sfound =>
        simpa [resolve_session, hr] using hinv k sfound hr
      | none =>
        simp [resolve_session, hr, max_attempts]
    · rw [findSession_insert_ne _ _ _ _ hksid] at hk
      exact hinv k sk hk
  · intro sid s hrs hne hfind heq
    subst hrs
    have hstr : wrapOuter (.raised 400 max_attempts_detail) =
        .error 500 ("Internal server error: 400: " ++ max_attempts_detail) := by decide
    rw [chat_def, resolve_sid_some sid fid hne, appended_session_found st sid msg now s hfind,
      chatLoop_ceiling _ _ _ _ _ (by simp [heq]), hstr]

/-- C1 witness: concrete session stuck at the ceiling (`attempts = 3`): the
rejected call leaves `attempts` at 3 and the store gains only the user turn. -/
theorem attempt_ceiling_C1_witness :
    Session.attempts ⟨[⟨"user", "m"⟩, ⟨"user", "x"⟩], "m", 3, 5⟩ ≤ max_attempts ∧
    chat [("s1", ⟨[⟨"user", "m"⟩], "m", 3, 0⟩)] (some "s1") "f" "x" 5 (fun _ => .timeout) =
      (.error 500 ("Internal server error: 400: " ++ max_attempts_detail),
        [("s1", ⟨[⟨"user", "m"⟩, ⟨"user", "x"⟩], "m", 3, 5⟩)],
        0) := by
  have hinv : ∀ k sk, findSession [("s1", (⟨[⟨"user", "m"⟩], "m", 3, 0⟩ : Session))] k = some sk →
      sk.attempts ≤ max_attempts := by
    intro k sk h
    simp [findSession] at h
    simp [← h.2, max_attempts]
  have h := attempt_ceiling_C1 [("s1", ⟨[⟨"user", "m"⟩], "m", 3, 0⟩)] (some "s1") "f" "x" 5
    (fun _ => .timeout) hinv
  exact ⟨h.1 "s1" ⟨[⟨"user", "m"⟩, ⟨"user", "x"⟩], "m", 3, 5⟩ (by decide),
    h.2 "s1" ⟨[⟨"user", "m"⟩], "m", 3, 0⟩ rfl (by decide) (by decide) rfl⟩

/-! ## C6 -/

/-- C6: when the agent call times out, the handler takes the timeout path
(raising the 504 timeout error, which the outer handler re-wraps with code 500)
and the session is left with exactly the appended user turn: `attempts` is
unchanged, `original_prompt` is unchanged, and no assistant message is
fabricated or appended to the history. -/
theorem timeout_frame_C6 (st : Store) (sid fid msg : String) (now : Nat) (s : Session)
    (hne : sid ≠ "") (hfind : findSession st sid = some s)
    (hlt : s.attempts < max_attempts) :
    chat st (some sid) fid msg now (fun _ => .timeout) =
      (.error 500 "Internal server error: 504: Request timed out. Please try again.",
        insertSession st sid
          { s with
            conversation_history :=
              s.conversation_history ++ [{ role := "user", content := msg }],
            last_active := now },
        1) := by
  have happ := appended_session_found st sid msg now s hfind
  have hlt' : (appended_session st sid msg now).attempts < max_attempts := by
    rw [happ]; exact hlt
  have hbody : loopBody sid now (appended_session st sid msg now) (fun _ => .timeout) =
      .ret (.raised 504 "Request timed out. Please try again.")
        (appended_session st sid msg now) 1 := rfl
  have hstr : wrapOuter (.raised 504 "Request timed out. Please try again.") =
      .error 500 "Internal server error: 504: Request timed out. Please try again." := by decide
  rw [chat_def, resolve_sid_some sid fid hne,
    chatLoop_run sid now (fun _ => .timeout) max_attempts _ hlt' _ _ _ hbody, hstr, happ]

/-- C6 witness: a concrete session with one missing-parameter turn behind it;
the timed-out call appends only the user turn and leaves `attempts` at 1. -/
theorem timeout_frame_C6_witness :
    chat [("s1", ⟨[⟨"user", "m"⟩, ⟨"assistant", "Please provide x."⟩], "m", 1, 0⟩)]
      (some "s1") "f" "x" 7 (fun _ => .timeout) =
      (.error 500 "Internal server error: 504: Request timed out. Please try again.",
        [("s1", ⟨[⟨"user", "m"⟩, ⟨"assistant", "Please provide x."⟩, ⟨"user", "x"⟩], "m", 1, 7⟩)],
        1) :=
  timeout_frame_C6 [("s1", ⟨[⟨"user", "m"⟩, ⟨"assistant", "Please provide x."⟩], "m", 1, 0⟩)]
    "s1" "f" "x" 7 ⟨[⟨"user", "m"⟩, ⟨"assistant", "Please provide x."⟩], "m", 1, 0⟩
    (by decide) (by decide) (by decide)

/-! ## C2 -/

/-- Modelled from the spec (claim C2), for comparison only: the claimed prompt —
`original_request`, then every prior user turn except the very first, then the
current user text, the turns each prefixed `"Provided: "` — rendered with the
source's own separators (header plus newline-joined turns), the reading most
charitable to the claim. -/
def claimed_prompt_C2 (original : String) (user_turns : List String) (current : String) : String :=
  "Original request: " ++ original ++ "\n" ++
    pyJoin "\n" ((user_turns.drop 1 ++ [current]).map (fun t => "Provided: " ++ t))

/-- The prompt the handler actually sends (amended claim C2): the bare current
`message` when the stored session's `attempts` is 0 — so on the first turn of a
conversation and on the first turn after a success no context is replayed — and
otherwise the `"Original request:"` header followed by every user turn of the
history, the very first and the current one included, each prefixed
`"Provided: "` and newline-joined. -/
def actual_prompt (s : Session) (message : String) : String :=
  if s.attempts > 0 then
    "Original request: " ++ s.original_prompt ++ "\n" ++
      pyJoin "\n"
        (((s.conversation_history ++ [({ role := "user", content := message } : Message)]).filter
          (fun m => m.role == "user")).map (fun m => "Provided: " ++ m.content))
  else message

theorem buildInput_appended (st : Store) (sid msg : String) (now : Nat) (s : Session)
    (hfind : findSession st sid = some s) :
    buildInput (appended_session st sid msg now) = actual_prompt s msg := by
  rw [appended_session_found st sid msg now s hfind]
  by_cases ha : s.attempts > 0
  · simp [buildInput, actual_prompt, ha]
  · simp [buildInput, actual_prompt, ha]

/-- The loop body observes the agent only through its value at the prompt. -/
theorem loopBody_congr (session_id : String) (now : Nat) (s : Session)
    (f g : String → AgentResult) (hfg : f (buildInput s) = g (buildInput s)) :
    loopBody session_id now s f = loopBody session_id now s g := by
  simp only [loopBody, hfg]

/-- C2 counterexample: the full-context reconstruction does not happen on every
agent call, and when it happens it does not exclude the first user turn.  With
an echo agent the prompt is observable as the success response: (i) on the
first turn of a fresh conversation the prompt is the bare message `"hi"`, which
does not even contain `"Provided: "`; (ii) on a continuing turn
(`attempts = 1`) the prompt repeats the first user turn (`"Provided: hi"`),
which the claimed concatenation excludes. -/
theorem prompt_reconstruction_C2_counterexample :
    (chat [] none "s1" "hi" 0 (fun p => .reply p)).1 =
      .ok { response := "hi", status := "success", session_id := "s1" } ∧
    pyContains "hi" "Provided: " = false ∧
    (chat [("s1", ⟨[⟨"user", "hi"⟩, ⟨"assistant", "Please provide x."⟩], "hi", 1, 0⟩)]
        (some "s1") "f" "a@b.c" 5 (fun p => .reply p)).1 =
      .ok { response := "Original request: hi\nProvided: hi\nProvided: a@b.c",
            status := "success", session_id := "s1" } ∧
    claimed_prompt_C2 "hi" ["hi"] "a@b.c" = "Original request: hi\nProvided: a@b.c" ∧
    ("Original request: hi\nProvided: hi\nProvided: a@b.c" : String) ≠
      "Original request: hi\nProvided: a@b.c" := by decide

/-- C2 amended: whenever the handler contacts the agent it sends exactly
`actual_prompt` — bare `message` when `attempts = 0`, the header plus all user
turns (first included) when `attempts > 0` — formalised as: the handler's
entire observable behavior depends on the agent only through the agent's value
at that one prompt. -/
theorem prompt_reconstruction_C2_amended (st : Store) (sid fid msg : String) (now : Nat)
    (s : Session) (f g : String → AgentResult)
    (hne : sid ≠ "") (hfind : findSession st sid = some s)
    (hfg : f (actual_prompt s msg) = g (actual_prompt s msg)) :
    chat st (some sid) fid msg now f = chat st (some sid) fid msg now g := by
  rw [chat_def, chat_def, resolve_sid_some sid fid hne]
  have hbi : buildInput (appended_session st sid msg now) = actual_prompt s msg :=
    buildInput_appended st sid msg now s hfind
  have hcongr : loopBody sid now (appended_session st sid msg now) f =
      loopBody sid now (appended_session st sid msg now) g :=
    loopBody_congr sid now _ f g (by rw [hbi]; exact hfg)
  by_cases hlt : (appended_session st sid msg now).attempts < max_attempts
  · obtain ⟨r, s', hbody⟩ := loopBody_spec sid now (appended_session st sid msg now) f
    obtain ⟨hb, -, -⟩ := hbody
    rw [chatLoop_run _ _ _ _ _ hlt _ _ _ hb,
      chatLoop_run _ _ _ _ _ hlt _ _ _ (hcongr ▸ hb)]
  · rw [chatLoop_ceiling _ _ _ _ _ hlt, chatLoop_ceiling _ _ _ _ _ hlt]

/-- C2 amended witness: two agents that agree at the one prompt the handler
sends for this session (`attempts = 1`) but disagree everywhere else produce
identical handler behavior. -/
theorem prompt_reconstruction_C2_amended_witness :
    chat [("s1", ⟨[⟨"user", "hi"⟩, ⟨"assistant", "Please provide x."⟩], "hi", 1, 0⟩)]
        (some "s1") "f" "a@b.c" 5
        (fun p => if p == "Original request: hi\nProvided: hi\nProvided: a@b.c"
          then .reply "done" else .timeout) =
      chat [("s1", ⟨[⟨"user", "hi"⟩, ⟨"assistant", "Please provide x."⟩], "hi", 1, 0⟩)]
        (some "s1") "f" "a@b.c" 5 (fun _ => .reply "done") :=
  prompt_reconstruction_C2_amended
    [("s1", ⟨[⟨"user", "hi"⟩, ⟨"assistant", "Please provide x."⟩], "hi", 1, 0⟩)]
    "s1" "f" "a@b.c" 5 ⟨[⟨"user", "hi"⟩, ⟨"assistant", "Please provide x."⟩], "hi", 1, 0⟩
    (fun p => if p == "Original request: hi\nProvided: hi\nProvided: a@b.c"
      then .reply "done" else .timeout)
    (fun _ => .reply "done")
    (by decide) (by decide) (by decide)

/-! ## C3 -/

/-- C3 counterexample: the extraction on the spec's own stubbed reply.  The
detection at source line 220 lower-cases the text but the split at line 221
does not (`result_text.split("please provide ")`), and `[-1]` takes the segment
after the last occurrence; on `"Please provide the email address."` the
case-sensitive split finds no occurrence, so the "extracted parameter name" is
the whole sentence up to the period — not `"email address"` as claimed. -/
theorem classifier_extraction_C3_counterexample :
    is_missing_reply "Please provide the email address." = true ∧
    extract_missing_param "Please provide the email address." = "Please provide the email address" ∧
    ("Please provide the email address" : String) ≠ "email address" := by decide

/-- C3 amended: a reply is classified Success iff it contains neither
`"please provide"` nor `"missing"` case-insensitively (unchanged from the
claim); the extracted name — computed at source line 221 but never placed in
the response — is the text after the last occurrence of the exact lower-case
string `"please provide "` up to the next `"."`, stripped, which on the
capitalised stubbed reply is the whole sentence sans period (and on an
all-lower-case variant still carries the leading `"the "`); the default
`"required parameter"` applies when `"please provide"` is absent
case-insensitively (only `"missing"` matched). -/
theorem classifier_extraction_C3_amended (t msg : String) :
    ((chat [] none "s1" msg 0 (fun _ => .reply t)).1 =
        .ok { response := t, status := "success", session_id := "s1" } ↔
      pyContains (pyLower t) "please provide" = false ∧
        pyContains (pyLower t) "missing" = false) ∧
    extract_missing_param "Please provide the email address." = "Please provide the email address" ∧
    extract_missing_param "please provide the email address." = "the email address" ∧
    extract_missing_param "The amount is missing" = "required parameter" := by
  refine ⟨?_, by decide, by decide, by decide⟩
  have hch : (chat [] none "s1" msg 0 (fun _ => .reply t)).1 =
      .ok
        { response := t,
          status := if is_missing_reply t then "missing_parameter" else "success",
          session_id := "s1" } := by
    by_cases hm : is_missing_reply t <;>
      simp [chat, resolve_sid, appended_session, resolve_session, findSession, chatLoop,
        max_attempts, loopBody, wrapOuter, hm]
  rw [hch]
  by_cases hm : is_missing_reply t
  · have hm' := hm
    simp only [is_missing_reply, Bool.or_eq_true] at hm'
    simp only [hm, if_true]
    constructor
    · intro h
      simp at h
    · rintro ⟨h1, h2⟩
      rw [h1, h2] at hm'
      simp at hm'
  · have hm' := hm
    simp only [is_missing_reply, Bool.or_eq_true, not_or, Bool.not_eq_true] at hm'
    simp only [hm, if_false]
    simp [hm'.1, hm'.2]

/-! ## C4 -/

/-- Modelled from the spec (claim C4), for comparison only: the claimed
fault-path fallback — probe list `email`, `link_id`, `transaction_id` in
priority order, each applying only when it occurs in the message, and
`"required parameter"` when none does. -/
def claimed_probe_C4 (error_str : String) : String :=
  if pyContains error_str "email" then "email"
  else if pyContains error_str "link_id" then "link_id"
  else if pyContains error_str "transaction_id" then "transaction_id"
  else "required parameter"

/-- C4 counterexample: (i) a fault message matching no schema parameter and no
probe entry is assigned `"transaction_id"` — the final else of source line 257
is unconditional — where the claim requires `"required parameter"`; (ii) a
`TypeError` fault never reaches the fault path at all: it surfaces as an
unrecoverable 500 internal error (source lines 237-239), contradicting
"never as an unrecoverable internal error". -/
theorem fault_path_C4_counterexample :
    fault_missing_param "boom" (some []) = "transaction_id" ∧
    claimed_probe_C4 "boom" = "required parameter" ∧
    ("transaction_id" : String) ≠ "required parameter" ∧
    (chat [] none "s1" "m" 0 (fun _ => .typeError "boom")).1 =
      .error 500
        "Internal server error: 500: Pickling error: boom. Please try again or contact support." := by
  decide

/-- C4 amended: for every fault other than a timeout or a `TypeError`, the
handler replies `missing_parameter` with the name chosen as: the first
required-parameter name of the fetched tool schema (schema listing order)
whose lower-cased form is a substring of the lower-cased fault message; if
none matches, `"email"` if `"email"` occurs in the message, else `"link_id"`
if `"link_id"` occurs, else `"transaction_id"` unconditionally; and
`"required parameter"` exactly when the schema fetch itself failed. -/
theorem fault_path_C4_amended :
    (∀ (m : String) (tf : Option (List Tool)),
      (chat [] none "s1" "m" 0 (fun _ => .fault m tf)).1 =
        .ok
          { response := "You requested: " ++ "m" ++ ". Please provide the " ++
              fault_missing_param (pyLower m) tf ++ ".",
            status := "missing_parameter",
            session_id := "s1" }) ∧
    (∀ err, fault_missing_param err none = "required parameter") ∧
    fault_missing_param "boom" (some []) = "transaction_id" ∧
    fault_missing_param "no email was given" (some []) = "email" ∧
    fault_missing_param "missing link_id and email" (some []) = "email" ∧
    fault_missing_param "bad link_id" (some []) = "link_id" ∧
    fault_missing_param "customer_email required" (some [⟨["amount", "customer_email"]⟩, ⟨["link_id"]⟩]) =
      "customer_email" := by
  refine ⟨?_, fun _ => rfl, by decide, by decide, by decide, by decide, by decide⟩
  intro m tf
  simp [chat, resolve_sid, appended_session, resolve_session, findSession, chatLoop,
    max_attempts, loopBody, wrapOuter]

/-! ## C5 -/

/-- C5 (code behavior at the failing inputs): the handler body constructs
`HTTPException(504)` on timeout (source line 236) and `HTTPException(400)` on
an attempt-ceiling breach (line 270), but both raises are caught by the outer
`except Exception` (lines 272-274) and re-raised as 500, so the client observes
500 — not a 504-class or 4xx code — on those paths; success and
missing-parameter outcomes are returned as 2xx response bodies as claimed. -/
theorem http_status_C5_theorem :
    (chat [] none "s1" "m" 0 (fun _ => .timeout)).1 =
      .error 500 "Internal server error: 504: Request timed out. Please try again." ∧
    (chat [("s1", ⟨[⟨"user", "m"⟩], "m", 3, 0⟩)] (some "s1") "f" "x" 5 (fun _ => .reply "ok")).1 =
      .error 500 ("Internal server error: 400: " ++ max_attempts_detail) ∧
    (chat [] none "s1" "hi" 0 (fun _ => .reply "All done")).1 =
      .ok { response := "All done", status := "success", session_id := "s1" } ∧
    (chat [] none "s1" "hi" 0 (fun _ => .reply "Please provide the email address.")).1 =
      .ok { response := "Please provide the email address.", status := "missing_parameter",
            session_id := "s1" } := by
  decide

/-! ## C7 -/

/-- Folding a sequence of `/chat` calls addressed to one session id over the
store: each element carries the message, the request time, and the agent's
behavior for that call. -/
def run_turns (sid fid : String) : Store → List (String × Nat × (String → AgentResult)) → Store
  | st, [] => st
  | st, (msg, now, agent) :: rest => run_turns sid fid (chat st (some sid) fid msg now agent).2.1 rest

/-- One `/chat` call on an existing session keeps `original_prompt` unchanged. -/
theorem chat_original_at (st : Store) (sid fid msg : String) (now : Nat)
    (agent : String → AgentResult) (s : Session)
    (hne : sid ≠ "") (hfind : findSession st sid = some s) :
    ∃ s2, findSession (chat st (some sid) fid msg now agent).2.1 sid = some s2 ∧
      s2.original_prompt = s.original_prompt := by
  rw [chat_def, resolve_sid_some sid fid hne]
  refine ⟨_, findSession_insert_self _ _ _, ?_⟩
  have h1 : (appended_session st sid msg now).original_prompt = s.original_prompt := by
    rw [appended_session_found st sid msg now s hfind]
  by_cases hlt : (appended_session st sid msg now).attempts < max_attempts
  · obtain ⟨r, s', hbody, horig, -⟩ := loopBody_spec sid now (appended_session st sid msg now) agent
    rw [chatLoop_run _ _ _ _ _ hlt _ _ _ hbody]
    exact horig.trans h1
  · rw [chatLoop_ceiling _ _ _ _ _ hlt]
    exact h1

/-- A `/chat` call creating the session sets `original_prompt` to its message. -/
theorem chat_creates_original (st : Store) (sid fid msg : String) (now : Nat)
    (agent : String → AgentResult)
    (hne : sid ≠ "") (hnew : findSession st sid = none) :
    ∃ s2, findSession (chat st (some sid) fid msg now agent).2.1 sid = some s2 ∧
      s2.original_prompt = msg := by
  rw [chat_def, resolve_sid_some sid fid hne]
  refine ⟨_, findSession_insert_self _ _ _, ?_⟩
  have h1 : (appended_session st sid msg now).original_prompt = msg := by
    simp [appended_session, resolve_session, hnew]
  by_cases hlt : (appended_session st sid msg now).attempts < max_attempts
  · obtain ⟨r, s', hbody, horig, -⟩ := loopBody_spec sid now (appended_session st sid msg now) agent
    rw [chatLoop_run _ _ _ _ _ hlt _ _ _ hbody]
    exact horig.trans h1
  · rw [chatLoop_ceiling _ _ _ _ _ hlt]
    exact h1

/-- Any sequence of further `/chat` calls preserves `original_prompt`. -/
theorem run_turns_original (sid fid : String) (hne : sid ≠ "") (msg : String) :
    ∀ (turns : List (String × Nat × (String → AgentResult))) (st : Store) (s0 : Session),
      findSession st sid = some s0 → s0.original_prompt = msg →
      ∀ s', findSession (run_turns sid fid st turns) sid = some s' →
        s'.original_prompt = msg := by
  intro turns
  induction turns with
  | nil =>
    intro st s0 h0 horig s' h'
    rw [run_turns] at h'
    rw [h0] at h'
    injection h' with h'
    rw [← h']
    exact horig
  | cons t rest ih =>
    obtain ⟨msg', now', agent'⟩ := t
    intro st s0 h0 horig s' h'
    rw [run_turns] at h'
    obtain ⟨s2, hf2, ho2⟩ := chat_original_at st sid fid msg' now' agent' s0 hne h0
    exact ih _ s2 hf2 (ho2.trans horig) s' h'

/-- C7: `original_request` is set exactly once, at session creation, and never
changes: after a first call that creates the session with message `msg`, any
number of further calls with any messages, times and agent behaviors leaves
`original_prompt` equal to `msg`. -/
theorem original_request_immutable_C7 (st : Store) (sid fid msg : String) (now : Nat)
    (agent : String → AgentResult) (turns : List (String × Nat × (String → AgentResult)))
    (hne : sid ≠ "") (hnew : findSession st sid = none) (s' : Session)
    (hfind' : findSession (run_turns sid fid (chat st (some sid) fid msg now agent).2.1 turns) sid =
      some s') :
    s'.original_prompt = msg := by
  obtain ⟨s2, hf2, ho2⟩ := chat_creates_original st sid fid msg now agent hne hnew
  exact run_turns_original sid fid hne msg turns _ s2 hf2 ho2 s' hfind'

/-- C7 witness: a concrete two-call conversation (creation with `"first"`,
then a second turn `"second"`); the stored `original_prompt` is still
`"first"`. -/
theorem original_request_immutable_C7_witness :
    Session.original_prompt
      ⟨[⟨"user", "first"⟩, ⟨"assistant", "first"⟩, ⟨"user", "second"⟩, ⟨"assistant", "ok"⟩],
        "first", 0, 1⟩ = "first" :=
  original_request_immutable_C7 [] "s1" "f" "first" 0 (fun p => .reply p)
    [("second", 1, fun _ => .reply "ok")] (by decide) (by decide)
    ⟨[⟨"user", "first"⟩, ⟨"assistant", "first"⟩, ⟨"user", "second"⟩, ⟨"assistant", "ok"⟩],
      "first", 0, 1⟩ (by decide)

/-! ## C8 -/

/-- C8: history is append-only across `/chat` calls: every call on an existing
session leaves the old history as a strict prefix, adding exactly the user turn
plus the returned assistant turn (growth 2) when the call returns a 2xx
`ChatResponse` — success and missing-parameter outcomes — and exactly the user
turn (growth 1) when the call ends in a raised error — the timeout, pickling
and attempt-ceiling paths; no entry is ever removed or rewritten. -/
theorem history_append_only_C8 (st : Store) (sid fid msg : String) (now : Nat) (s : Session)
    (agent : String → AgentResult)
    (hne : sid ≠ "") (hfind : findSession st sid = some s) :
    ∃ s', findSession (chat st (some sid) fid msg now agent).2.1 sid = some s' ∧
      ((∃ resp, (chat st (some sid) fid msg now agent).1 = .ok resp ∧
          s'.conversation_history = s.conversation_history ++
            [{ role := "user", content := msg },
              { role := "assistant", content := resp.response }]) ∨
        (∃ code detail, (chat st (some sid) fid msg now agent).1 = .error code detail ∧
          s'.conversation_history = s.conversation_history ++
            [{ role := "user", content := msg }])) := by
  rw [chat_def, resolve_sid_some sid fid hne]
  have happ := appended_session_found st sid msg now s hfind
  by_cases hlt : (appended_session st sid msg now).attempts < max_attempts
  · obtain ⟨r, s', hbody, -, hcases⟩ := loopBody_spec sid now (appended_session st sid msg now) agent
    rw [chatLoop_run _ _ _ _ _ hlt _ _ _ hbody]
    refine ⟨s', findSession_insert_self _ _ _, ?_⟩
    rcases hcases with ⟨resp, hr, hh, -⟩ | ⟨code, detail, hr, hs⟩
    · subst hr
      refine Or.inl ⟨resp, rfl, ?_⟩
      rw [hh, happ]
      simp
    · subst hr
      refine Or.inr ⟨500, _, rfl, ?_⟩
      rw [hs, happ]
  · rw [chatLoop_ceiling _ _ _ _ _ hlt]
    refine ⟨_, findSession_insert_self _ _ _, Or.inr ⟨500, _, rfl, ?_⟩⟩
    rw [happ]

/-- C8 witness: a concrete continuing session; the successful call grows the
history by exactly the user turn and the agent's reply. -/
theorem history_append_only_C8_witness :
    ∃ s', findSession
        (chat [("s1", ⟨[⟨"user", "m"⟩, ⟨"assistant", "Please provide the email."⟩], "m", 1, 0⟩)]
          (some "s1") "f" "a@b.c" 9 (fun _ => .reply "Created link paytm.me/abc123")).2.1 "s1" =
        some s' ∧
      ((∃ resp, (chat [("s1", ⟨[⟨"user", "m"⟩, ⟨"assistant", "Please provide the email."⟩], "m", 1, 0⟩)]
            (some "s1") "f" "a@b.c" 9 (fun _ => .reply "Created link paytm.me/abc123")).1 =
            .ok resp ∧
          s'.conversation_history = [⟨"user", "m"⟩, ⟨"assistant", "Please provide the email."⟩] ++
            [{ role := "user", content := "a@b.c" },
              { role := "assistant", content := resp.response }]) ∨
        (∃ code detail, (chat [("s1", ⟨[⟨"user", "m"⟩, ⟨"assistant", "Please provide the email."⟩], "m", 1, 0⟩)]
            (some "s1") "f" "a@b.c" 9 (fun _ => .reply "Created link paytm.me/abc123")).1 =
            .error code detail ∧
          s'.conversation_history = [⟨"user", "m"⟩, ⟨"assistant", "Please provide the email."⟩] ++
            [{ role := "user", content := "a@b.c" }])) :=
  history_append_only_C8
    [("s1", ⟨[⟨"user", "m"⟩, ⟨"assistant", "Please provide the email."⟩], "m", 1, 0⟩)]
    "s1" "f" "a@b.c" 9 ⟨[⟨"user", "m"⟩, ⟨"assistant", "Please provide the email."⟩], "m", 1, 0⟩
    (fun _ => .reply "Created link paytm.me/abc123") (by decide) (by decide)

/-! ## C9 -/

/-- C9: within one `/chat` call the agent is invoked at most once: every branch
of the while-loop body returns or raises (`LoopStep.ret`, never `LoopStep.next`)
after exactly one agent invocation, so the loop never reaches a second
iteration — its result does not depend on the iteration budget at all — and the
whole handler performs at most one agent call (zero on the ceiling path). -/
theorem single_agent_invocation_C9 (st : Store) (rs : Option String) (fid msg : String)
    (now : Nat) (agent : String → AgentResult) (sid : String) (s : Session) (fuel : Nat) :
    (∃ r s', loopBody sid now s agent = .ret r s' 1) ∧
    chatLoop sid now agent fuel s = chatLoop sid now agent 0 s ∧
    (chat st rs fid msg now agent).2.2 ≤ 1 := by
  obtain ⟨r, s', hbody, -, -⟩ := loopBody_spec sid now s agent
  refine ⟨⟨r, s', hbody⟩, ?_, ?_⟩
  · by_cases hlt : s.attempts < max_attempts
    · rw [chatLoop_run _ _ _ fuel _ hlt _ _ _ hbody, chatLoop_run _ _ _ 0 _ hlt _ _ _ hbody]
    · rw [chatLoop_ceiling _ _ _ fuel _ hlt, chatLoop_ceiling _ _ _ 0 _ hlt]
  · rw [chat_def]
    by_cases hlt : (appended_session st (resolve_sid rs fid) msg now).attempts < max_attempts
    · obtain ⟨r1, s1', hbody1, -, -⟩ :=
        loopBody_spec (resolve_sid rs fid) now (appended_session st (resolve_sid rs fid) msg now)
          agent
      rw [chatLoop_run _ _ _ _ _ hlt _ _ _ hbody1]
    · rw [chatLoop_ceiling _ _ _ _ _ hlt]
      exact Nat.zero_le 1

/-! ## C10 -/

/-- An externally observable event touching one session: a `/chat` call
addressed to it (with its message, request time, fresh-uuid fallback and agent
behavior) or one sweep of the hourly cleanup task at a given time. -/
inductive SessionEvent where
  | turn (msg : String) (t : Nat) (fid : String) (agent : String → AgentResult)
  | sweep (t : Nat)

/-- Replay a list of events against the store. -/
def run_events (sid : String) : Store → List SessionEvent → Store
  | st, [] => st
  | st, .turn msg t fid agent :: rest =>
    run_events sid (chat st (some sid) fid msg t agent).2.1 rest
  | st, .sweep t :: rest => run_events sid (cleanup_sweep t st) rest

/-- Number of `/chat` calls in an event list. -/
def countTurns : List SessionEvent → Nat
  | [] => 0
  | .turn _ _ _ _ :: rest => countTurns rest + 1
  | .sweep _ :: rest => countTurns rest

/-- Time of the last `/chat` call in an event list (`t0` if there is none). -/
def lastTurnTime (t0 : Nat) : List SessionEvent → Nat
  | [] => t0
  | .turn _ t _ _ :: rest => lastTurnTime t rest
  | .sweep _ :: rest => lastTurnTime t0 rest

/-- The session keeps receiving turns at least once per retention window:
every sweep happens at most 86400 time units after the latest turn (`t0` is
the session's `last_active` before the events). -/
def eventsOk : Nat → List SessionEvent → Bool
  | _, [] => true
  | _, .turn _ t _ _ :: rest => eventsOk t rest
  | t0, .sweep t :: rest => decide (t - t0 ≤ 86400) && eventsOk t0 rest

/-- A `/chat` call on a session at the attempt ceiling still appends the user
turn and refreshes `last_active` (source lines 201-202 run before the
while-loop guard). -/
theorem chat_ceiling_store (st : Store) (sid fid msg : String) (now : Nat)
    (agent : String → AgentResult) (s : Session)
    (hne : sid ≠ "") (hfind : findSession st sid = some s)
    (hge : ¬ s.attempts < max_attempts) :
    (chat st (some sid) fid msg now agent).2.1 =
      insertSession st sid
        { s with
          conversation_history := s.conversation_history ++ [{ role := "user", content := msg }],
          last_active := now } := by
  rw [chat_def, resolve_sid_some sid fid hne, appended_session_found st sid msg now s hfind,
    chatLoop_ceiling _ _ _ _ _ (by simpa using hge)]

/-- A non-expired session survives one cleanup sweep unchanged. -/
theorem cleanup_keeps (st : Store) (sid : String) (s : Session) (t : Nat)
    (hfind : findSession st sid = some s)
    (hok : session_expired t s = false) :
    findSession (cleanup_sweep t st) sid = some s := by
  induction st with
  | nil => simp [findSession] at hfind
  | cons p rest ih =>
    obtain ⟨k, v⟩ := p
    by_cases hk : k = sid
    · subst hk
      simp [findSession] at hfind
      subst hfind
      simp [cleanup_sweep, hok, findSession]
    · have hkb : (k == sid) = false := by simp [hk]
      simp only [findSession, hkb, Bool.false_eq_true, if_false] at hfind
      have ihr := ih hfind
      simp only [cleanup_sweep] at ihr ⊢
      by_cases hex : session_expired t v
      · simp [hex, ihr]
      · simp [hex, findSession, hkb, ihr]

/-- C10: every `/chat` call — ceiling-rejected calls included — appends the
user turn and refreshes `last_active` before the ceiling check, so a session
stuck at the attempt ceiling that keeps receiving rejected turns at least once
per 24-hour retention window survives every hourly sweep: after any such event
sequence the session is still present, its `attempts` unchanged, its history
grown by exactly one entry per rejected call, its `last_active` equal to the
last turn's time, and its `original_prompt` intact. -/
theorem stuck_session_retention_C10 (sid : String) (hne : sid ≠ "") :
    ∀ (events : List SessionEvent) (st : Store) (s : Session),
      findSession st sid = some s →
      ¬ s.attempts < max_attempts →
      s.conversation_history ≠ [] →
      eventsOk s.last_active events = true →
      ∃ s', findSession (run_events sid st events) sid = some s' ∧
        s'.attempts = s.attempts ∧
        s'.conversation_history.length = s.conversation_history.length + countTurns events ∧
        s'.last_active = lastTurnTime s.last_active events ∧
        s'.original_prompt = s.original_prompt := by
  intro events
  induction events with
  | nil =>
    intro st s h hge hnil hok
    exact ⟨s, h, rfl, by simp [countTurns], by simp [lastTurnTime], rfl⟩
  | cons e rest ih =>
    cases e with
    | turn msg t fid agent =>
      intro st s h hge hnil hok
      have hstep := chat_ceiling_store st sid fid msg t agent s hne h hge
      have hfind1 : findSession (chat st (some sid) fid msg t agent).2.1 sid =
          some { s with
            conversation_history :=
              s.conversation_history ++ [{ role := "user", content := msg }],
            last_active := t } := by
        rw [hstep]
        exact findSession_insert_self _ _ _
      have hok1 : eventsOk t rest = true := hok
      obtain ⟨s', hf, ha, hl, hla, ho⟩ :=
        ih (chat st (some sid) fid msg t agent).2.1 _ hfind1 (by simpa using hge) (by simp) hok1
      refine ⟨s', by simpa [run_events] using hf, by simpa using ha, ?_, ?_, by simpa using ho⟩
      · simp only [countTurns]
        simp at hl
        omega
      · exact hla
    | sweep t =>
      intro st s h hge hnil hok
      have hok' : (decide (t - s.last_active ≤ 86400) && eventsOk s.last_active rest) = true := hok
      rw [Bool.and_eq_true] at hok'
      have hexp : session_expired t s = false := by
        have h1 : decide (86400 < t - s.last_active) = false := by
          rw [decide_eq_false_iff_not]
          have h2 := of_decide_eq_true hok'.1
          omega
        simp [session_expired, h1, hnil]
      have hkeep := cleanup_keeps st sid s t h hexp
      obtain ⟨s', hf, ha, hl, hla, ho⟩ := ih (cleanup_sweep t st) s hkeep hge hnil hok'.2
      exact ⟨s', by simpa [run_events] using hf, ha, by simpa [countTurns] using hl,
        by simpa [lastTurnTime] using hla, ho⟩

/-- C10 witness: a session stuck at the ceiling (`attempts = 3`, `last_active
= 100`) receiving two rejected turns with sweeps 40000 and 80000 time units
after the respective latest turn: it survives both sweeps with two extra
history entries. -/
theorem stuck_session_retention_C10_witness :
    ∃ s', findSession
        (run_events "s1" [("s1", ⟨[⟨"user", "m"⟩, ⟨"assistant", "r"⟩], "m", 3, 100⟩)]
          [.turn "x" 50000 "f" (fun _ => .timeout), .sweep 90000,
            .turn "y" 120000 "f" (fun _ => .timeout), .sweep 200000]) "s1" = some s' ∧
      s'.attempts = 3 ∧
      s'.conversation_history.length = 2 + 2 ∧
      s'.last_active = 120000 ∧
      s'.original_prompt = "m" :=
  stuck_session_retention_C10 "s1" (by decide)
    [.turn "x" 50000 "f" (fun _ => .timeout), .sweep 90000,
      .turn "y" 120000 "f" (fun _ => .timeout), .sweep 200000]
    [("s1", ⟨[⟨"user", "m"⟩, ⟨"assistant", "r"⟩], "m", 3, 100⟩)]
    ⟨[⟨"user", "m"⟩, ⟨"assistant", "r"⟩], "m", 3, 100⟩
    (by decide) (by decide) (by decide) (by decide)
